import Mathlib

/-!
Verification of the property-data aggregation backend.

The code under verification fetches property data for an address from a
list of providers, standardizes each provider's raw JSON document into a
fixed 11-field record, and collects the results (or per-provider error
placeholders) into a mapping keyed by provider display name.

Embedding conventions:
* Python/JSON values are modelled by the inductive `JVal`; Python `None`
  is `JVal.null`, numbers are exact rationals.
* Python dictionaries are association lists with unique keys; `dict.get`
  is `dictGet`, `d[k] = v` insertion is `dictInsert` (replacing in place
  on an existing key, appending otherwise, as CPython dicts do).
* Fallible Python code (attribute errors on `.get` of a non-dict,
  type errors on dividing a non-number) returns `Except String _`;
  the carried string stands for `str(e)` of the raised exception.
-/

/-- A JSON-like value as handled by the Python code: `null`, booleans,
numbers (modelled as exact rationals), strings, and objects given as
key-value association lists. -/
inductive JVal : Type where
  | null : JVal
  | bool (b : Bool) : JVal
  | num (q : ℚ) : JVal
  | str (s : String) : JVal
  | obj (kvs : List (String × JVal)) : JVal

/-- Python `dict.get(k, d)` on an association list: the value at the
first occurrence of key `k`, else the default `d`. -/
def dictGet : List (String × JVal) → String → JVal → JVal
  | [], _, d => d
  | (k, v) :: rest, key, d => if k = key then v else dictGet rest key d

/-- Python `d[k] = v` on an association list: replace the value at an
existing key in place, else append the new binding at the end. -/
def dictInsert : List (String × JVal) → String → JVal → List (String × JVal)
  | [], key, v => [(key, v)]
  | (k, w) :: rest, key, v =>
      if k = key then (key, v) :: rest else (k, w) :: dictInsert rest key v

/-- Attribute access `x.get(k, d)` in Python: succeeds with the looked-up
value when `x` is a dict, raises `AttributeError` otherwise (in
particular on `None`). -/
def jGetD (x : JVal) (key : String) (d : JVal) : Except String JVal :=
  match x with
  | .obj kvs => .ok (dictGet kvs key d)
  | _ => .error "AttributeError: object has no attribute get"

/-- `x.get(k)` with Python's implicit default `None`. -/
def jGetN (x : JVal) (key : String) : Except String JVal :=
  jGetD x key .null

/-- Round a rational to the nearest integer, ties to even — the rounding
rule of Python's builtin `round`. -/
def roundHalfEven (q : ℚ) : ℤ :=
  if q - ⌊q⌋ < 1 / 2 then ⌊q⌋
  else if q - ⌊q⌋ > 1 / 2 then ⌊q⌋ + 1
  else if ⌊q⌋ % 2 = 0 then ⌊q⌋ else ⌊q⌋ + 1

/-- Python `round(q, 2)`: round to 2 decimal places, ties to even. -/
def round2 (q : ℚ) : ℚ := (roundHalfEven (q * 100) : ℚ) / 100

/-- `PropertyStandardizer._convert_sqft_to_acres`: `None` passes through;
a number is divided by 43560 and rounded to 2 decimals (a Python bool is
numeric, `True` counting as 1); any other operand of `/` raises
`TypeError`. -/
def convert_sqft_to_acres (sqft : JVal) : Except String JVal :=
  match sqft with
  | .null => .ok .null
  | .num q => .ok (.num (round2 (q / 43560)))
  | .bool b => .ok (.num (round2 ((if b then (1 : ℚ) else 0) / 43560)))
  | _ => .error "TypeError: unsupported operand type for division"

/-- `PropertyStandardizer.standardize_provider1`, with the source's
evaluation order: first the `data` sub-dict (default empty dict), then
the `features` sub-dict of `data` (default empty dict), then the fields
of the output dict literal in order. -/
def standardize_provider1 (raw : JVal) : Except String JVal := do
  let data ← jGetD raw "data" (.obj [])
  let features ← jGetD data "features" (.obj [])
  let address ← jGetN data "formattedAddress"
  let squareFootage ← jGetN data "squareFootage"
  let lotRaw ← jGetN data "lotSizeSqFt"
  let lotSize ← convert_sqft_to_acres lotRaw
  let yearBuilt ← jGetN data "yearBuilt"
  let propertyType ← jGetN data "propertyType"
  let bedrooms ← jGetN data "bedrooms"
  let bathrooms ← jGetN data "bathrooms"
  let roomCount ← jGetN features "roomCount"
  let septicSystem ← jGetN features "septicSystem"
  let salePrice ← jGetN data "lastSalePrice"
  let cached ← jGetD raw "cached" (.bool false)
  pure (.obj
    [("address", address), ("squareFootage", squareFootage),
     ("lotSize", lotSize), ("yearBuilt", yearBuilt),
     ("propertyType", propertyType), ("bedrooms", bedrooms),
     ("bathrooms", bathrooms), ("roomCount", roomCount),
     ("septicSystem", septicSystem), ("salePrice", salePrice),
     ("cached", cached)])

/-- `PropertyStandardizer.standardize_provider2`: flat PascalCase fields
under `data`, lot size passed through with no conversion. -/
def standardize_provider2 (raw : JVal) : Except String JVal := do
  let data ← jGetD raw "data" (.obj [])
  let address ← jGetN data "NormalizedAddress"
  let squareFootage ← jGetN data "SquareFootage"
  let lotSize ← jGetN data "LotSizeAcres"
  let yearBuilt ← jGetN data "YearConstructed"
  let propertyType ← jGetN data "PropertyType"
  let bedrooms ← jGetN data "Bedrooms"
  let bathrooms ← jGetN data "Bathrooms"
  let roomCount ← jGetN data "RoomCount"
  let septicSystem ← jGetN data "SepticSystem"
  let salePrice ← jGetN data "SalePrice"
  let cached ← jGetD raw "cached" (.bool false)
  pure (.obj
    [("address", address), ("squareFootage", squareFootage),
     ("lotSize", lotSize), ("yearBuilt", yearBuilt),
     ("propertyType", propertyType), ("bedrooms", bedrooms),
     ("bathrooms", bathrooms), ("roomCount", roomCount),
     ("septicSystem", septicSystem), ("salePrice", salePrice),
     ("cached", cached)])

/-- A configured provider, as the aggregator sees it: a display name
(`get_provider_name`) and a fetch operation (`get_property_details`)
that either returns a raw JSON document or raises with a message. The
fetch function is left abstract, so quantifying over `Provider` covers
every combination of per-provider outcomes. -/
structure Provider : Type where
  name : String
  fetch : String → Except String JVal

/-- The error placeholder built in the `except` branch of
`PropertyAggregator.fetch_all`, with the source's key order. -/
def errorPlaceholder (msg : String) : JVal :=
  .obj
    [("error", .str msg), ("address", .null), ("squareFootage", .null),
     ("lotSize", .null), ("yearBuilt", .null), ("propertyType", .null),
     ("bedrooms", .null), ("bathrooms", .null), ("roomCount", .null),
     ("septicSystem", .null), ("salePrice", .null),
     ("cached", .bool false)]

/-- One iteration of the `fetch_all` loop body for provider `p`: fetch,
dispatch on the display name to a standardizer (unknown names pass the
raw document through), and absorb any raised error into an
`errorPlaceholder` carrying its message. -/
def fetchOne (address : String) (p : Provider) : JVal :=
  match (do
      let raw ← p.fetch address
      if p.name = "Provider 1" then standardize_provider1 raw
      else if p.name = "Provider 2" then standardize_provider2 raw
      else pure raw) with
  | .ok v => v
  | .error e => errorPlaceholder e

/-- The `fetch_all` loop with its accumulated `results` dict and, as an
instrumentation of the embedding, the trace of `get_property_details`
invocations (provider name, address) in the order they are issued. The
loop body always performs the fetch call, even when it raises. -/
def runAux (address : String) (acc : List (String × JVal))
    (tr : List (String × String)) :
    List Provider → List (String × JVal) × List (String × String)
  | [] => (acc, tr)
  | p :: rest =>
      runAux address (dictInsert acc p.name (fetchOne address p))
        (tr ++ [(p.name, address)]) rest

/-- `PropertyAggregator.fetch_all`: the `providers` dict built by the
loop, wrapped in the response envelope. -/
def fetch_all (providers : List Provider) (address : String) : JVal :=
  .obj [("providers", .obj (runAux address [] [] providers).1)]

/-- The provider invocations performed by a `fetch_all` run. -/
def fetch_trace (providers : List Provider) (address : String) :
    List (String × String) :=
  (runAux address [] [] providers).2

/-- `property_view`: the endpoint handler. The `address` query
parameter is `none` when absent; Python's `if not address` rejects both
`None` and the empty string with a 400 before any provider is touched.
The result is the pair (HTTP status, JSON body) together with the trace
of provider invocations issued while producing it. `fetch_all` is total
in the embedding (per-provider failures are absorbed inside it), so the
handler's 500 branch is unreachable and does not appear. -/
def property_view (providers : List Provider) (address : Option String) :
    (Nat × JVal) × List (String × String) :=
  match address with
  | none => ((400, .obj [("error", .str "Address is required")]), [])
  | some a =>
      if a = "" then ((400, .obj [("error", .str "Address is required")]), [])
      else ((200, fetch_all providers a), fetch_trace providers a)

/-- Field access on a JSON object, `null` on a missing key. -/
def objGet (v : JVal) (key : String) : JVal :=
  match v with
  | .obj kvs => dictGet kvs key .null
  | _ => .null

/-- The key list of a JSON object. -/
def objKeys : JVal → List String
  | .obj kvs => kvs.map Prod.fst
  | _ => []

/-- The fixed 11-field schema of a standardized property record. -/
def schemaKeys : List String :=
  ["address", "squareFootage", "lotSize", "yearBuilt", "propertyType",
   "bedrooms", "bathrooms", "roomCount", "septicSystem", "salePrice",
   "cached"]

/-- The ten data fields of the schema (everything except `cached`). -/
def dataFields : List String :=
  ["address", "squareFootage", "lotSize", "yearBuilt", "propertyType",
   "bedrooms", "bathrooms", "roomCount", "septicSystem", "salePrice"]

/-- The record `standardize_provider1` builds from a raw document whose
`data` entry is the dict `dkvs`, whose `features` entry is the dict
`fkvs`, and whose lot-size conversion produced `lv`. -/
def standard1Of (rkvs dkvs fkvs : List (String × JVal)) (lv : JVal) : JVal :=
  .obj
    [("address", dictGet dkvs "formattedAddress" .null),
     ("squareFootage", dictGet dkvs "squareFootage" .null),
     ("lotSize", lv),
     ("yearBuilt", dictGet dkvs "yearBuilt" .null),
     ("propertyType", dictGet dkvs "propertyType" .null),
     ("bedrooms", dictGet dkvs "bedrooms" .null),
     ("bathrooms", dictGet dkvs "bathrooms" .null),
     ("roomCount", dictGet fkvs "roomCount" .null),
     ("septicSystem", dictGet fkvs "septicSystem" .null),
     ("salePrice", dictGet dkvs "lastSalePrice" .null),
     ("cached", dictGet rkvs "cached" (.bool false))]

/-- The record `standardize_provider2` builds from a raw document whose
`data` entry is the dict `dkvs`. -/
def standard2Of (rkvs dkvs : List (String × JVal)) : JVal :=
  .obj
    [("address", dictGet dkvs "NormalizedAddress" .null),
     ("squareFootage", dictGet dkvs "SquareFootage" .null),
     ("lotSize", dictGet dkvs "LotSizeAcres" .null),
     ("yearBuilt", dictGet dkvs "YearConstructed" .null),
     ("propertyType", dictGet dkvs "PropertyType" .null),
     ("bedrooms", dictGet dkvs "Bedrooms" .null),
     ("bathrooms", dictGet dkvs "Bathrooms" .null),
     ("roomCount", dictGet dkvs "RoomCount" .null),
     ("septicSystem", dictGet dkvs "SepticSystem" .null),
     ("salePrice", dictGet dkvs "SalePrice" .null),
     ("cached", dictGet rkvs "cached" (.bool false))]

/-- A Python computation over the mutable raw document: given the
document's current state, produce the (possibly updated) state and
either a value or a raised error. Used to settle the frame property of
the standardizers: each primitive they invoke records its effect on the
document explicitly. -/
def PySt (α : Type) : Type := JVal → JVal × Except String α

/-- Lift a read-only operation: Python `dict.get` (and arithmetic on
extracted values) reads without mutating its receiver, so the document
state passes through unchanged. -/
def pyRead {α : Type} (m : Except String α) : PySt α := fun s => (s, m)

def pyPure {α : Type} (a : α) : PySt α := fun s => (s, .ok a)

/-- Sequencing with Python exception semantics: a raised error stops
the computation, leaving the state as the failing step left it. -/
def pyBind {α β : Type} (m : PySt α) (f : α → PySt β) : PySt β := fun s =>
  match m s with
  | (s1, .ok a) => f a s1
  | (s1, .error e) => (s1, .error e)

def pyGetD (x : JVal) (key : String) (d : JVal) : PySt JVal :=
  pyRead (jGetD x key d)

def pyGetN (x : JVal) (key : String) : PySt JVal :=
  pyRead (jGetN x key)

def pyConvert (v : JVal) : PySt JVal :=
  pyRead (convert_sqft_to_acres v)

/-- `standardize_provider1` with the state of the raw document threaded
through every operation of the source, in source order. -/
def standardize_provider1_st (raw : JVal) : PySt JVal :=
  pyBind (pyGetD raw "data" (.obj [])) fun data =>
  pyBind (pyGetD data "features" (.obj [])) fun features =>
  pyBind (pyGetN data "formattedAddress") fun address =>
  pyBind (pyGetN data "squareFootage") fun squareFootage =>
  pyBind (pyGetN data "lotSizeSqFt") fun lotRaw =>
  pyBind (pyConvert lotRaw) fun lotSize =>
  pyBind (pyGetN data "yearBuilt") fun yearBuilt =>
  pyBind (pyGetN data "propertyType") fun propertyType =>
  pyBind (pyGetN data "bedrooms") fun bedrooms =>
  pyBind (pyGetN data "bathrooms") fun bathrooms =>
  pyBind (pyGetN features "roomCount") fun roomCount =>
  pyBind (pyGetN features "septicSystem") fun septicSystem =>
  pyBind (pyGetN data "lastSalePrice") fun salePrice =>
  pyBind (pyGetD raw "cached" (.bool false)) fun cached =>
  pyPure (.obj
    [("address", address), ("squareFootage", squareFootage),
     ("lotSize", lotSize), ("yearBuilt", yearBuilt),
     ("propertyType", propertyType), ("bedrooms", bedrooms),
     ("bathrooms", bathrooms), ("roomCount", roomCount),
     ("septicSystem", septicSystem), ("salePrice", salePrice),
     ("cached", cached)])

/-- `standardize_provider2` with the document state threaded through
every operation of the source, in source order. -/
def standardize_provider2_st (raw : JVal) : PySt JVal :=
  pyBind (pyGetD raw "data" (.obj [])) fun data =>
  pyBind (pyGetN data "NormalizedAddress") fun address =>
  pyBind (pyGetN data "SquareFootage") fun squareFootage =>
  pyBind (pyGetN data "LotSizeAcres") fun lotSize =>
  pyBind (pyGetN data "YearConstructed") fun yearBuilt =>
  pyBind (pyGetN data "PropertyType") fun propertyType =>
  pyBind (pyGetN data "Bedrooms") fun bedrooms =>
  pyBind (pyGetN data "Bathrooms") fun bathrooms =>
  pyBind (pyGetN data "RoomCount") fun roomCount =>
  pyBind (pyGetN data "SepticSystem") fun septicSystem =>
  pyBind (pyGetN data "SalePrice") fun salePrice =>
  pyBind (pyGetD raw "cached" (.bool false)) fun cached =>
  pyPure (.obj
    [("address", address), ("squareFootage", squareFootage),
     ("lotSize", lotSize), ("yearBuilt", yearBuilt),
     ("propertyType", propertyType), ("bedrooms", bedrooms),
     ("bathrooms", bathrooms), ("roomCount", roomCount),
     ("septicSystem", septicSystem), ("salePrice", salePrice),
     ("cached", cached)])

/-- A stateful computation simulates a pure one when it returns that
pure result and leaves every state unchanged. -/
def StSim {α : Type} (m : PySt α) (me : Except String α) : Prop :=
  ∀ s, m s = (s, me)

/-- The fully-null standardized record: the output of either
standardizer on a raw document with no usable keys. -/
def allNull1 : JVal :=
  .obj
    [("address", .null), ("squareFootage", .null), ("lotSize", .null),
     ("yearBuilt", .null), ("propertyType", .null), ("bedrooms", .null),
     ("bathrooms", .null), ("roomCount", .null), ("septicSystem", .null),
     ("salePrice", .null), ("cached", .bool false)]

/-- Values on which the Python expression `sqft / 43560` is defined:
`None` (short-circuited before the division), numbers, and booleans. -/
def lotConvertible : JVal → Bool
  | .null => true
  | .num _ => true
  | .bool _ => true
  | _ => false

/-- Sample provider whose fetch raises. -/
def wp1 : Provider := ⟨"Provider 1", fun _ => .error "connection timed out"⟩

/-- Sample raw Provider 2 response. -/
def wp2raw : JVal :=
  .obj
    [("data", .obj
       [("NormalizedAddress", .str "1 Elm St"),
        ("LotSizeAcres", .num (33 / 100))]),
     ("cached", .bool true)]

/-- Sample provider whose fetch succeeds with `wp2raw`. -/
def wp2 : Provider := ⟨"Provider 2", fun _ => .ok wp2raw⟩

/-- The standardization of `wp2raw`. -/
def wp2std : JVal :=
  .obj
    [("address", .str "1 Elm St"), ("squareFootage", .null),
     ("lotSize", .num (33 / 100)), ("yearBuilt", .null),
     ("propertyType", .null), ("bedrooms", .null), ("bathrooms", .null),
     ("roomCount", .null), ("septicSystem", .null), ("salePrice", .null),
     ("cached", .bool true)]

/-- A raw document from a provider with no standardizer mapping. -/
def wp3raw : JVal := .obj [("SomeUnknownField", .num 7)]

/-- Sample provider with an unrecognized display name. -/
def wp3 : Provider := ⟨"Provider 3", fun _ => .ok wp3raw⟩

/-- A Provider 2 document carrying `LotSizeAcres: 0.33`. -/
def lot033doc : JVal :=
  .obj [("data", .obj [("LotSizeAcres", .num (33 / 100))])]

/-- The standardization of `lot033doc`. -/
def lot033out : JVal :=
  .obj
    [("address", .null), ("squareFootage", .null),
     ("lotSize", .num (33 / 100)), ("yearBuilt", .null),
     ("propertyType", .null), ("bedrooms", .null), ("bathrooms", .null),
     ("roomCount", .null), ("septicSystem", .null), ("salePrice", .null),
     ("cached", .bool false)]

/-- A Provider 1 document carrying `lotSizeSqFt: 21780`. -/
def lot21780doc : JVal :=
  .obj [("data", .obj [("lotSizeSqFt", .num 21780)])]

/-- The standardization of `lot21780doc`: half an acre. -/
def lot21780out : JVal :=
  .obj
    [("address", .null), ("squareFootage", .null),
     ("lotSize", .num (1 / 2)), ("yearBuilt", .null),
     ("propertyType", .null), ("bedrooms", .null), ("bathrooms", .null),
     ("roomCount", .null), ("septicSystem", .null), ("salePrice", .null),
     ("cached", .bool false)]

lemma dictGet_not_mem {kvs : List (String × JVal)} {k : String} {d : JVal}
    (h : k ∉ kvs.map Prod.fst) : dictGet kvs k d = d := by
  induction kvs with
  | nil => rfl
  | cons kv rest ih =>
      rcases kv with ⟨k1, v1⟩
      simp only [List.map_cons, List.mem_cons, not_or] at h
      simp only [dictGet]
      rw [if_neg (fun he => h.1 he.symm)]
      exact ih h.2

lemma dictGet_mem_nodup {kvs : List (String × JVal)} {k : String} {v d : JVal}
    (hn : (kvs.map Prod.fst).Nodup) (hm : (k, v) ∈ kvs) :
    dictGet kvs k d = v := by
  induction kvs with
  | nil => exact absurd hm (List.not_mem_nil _)
  | cons kv rest ih =>
      rcases kv with ⟨k1, v1⟩
      simp only [List.map_cons, List.nodup_cons] at hn
      rcases List.mem_cons.mp hm with he | hm2
      · rw [Prod.mk.injEq] at he
        simp [dictGet, he.1, he.2]
      · have hk : k1 ≠ k := by
          intro he
          have hmem : k ∈ rest.map Prod.fst :=
            List.mem_map.mpr ⟨(k, v), hm2, rfl⟩
          rw [he] at hn
          exact hn.1 hmem
        simp only [dictGet]
        rw [if_neg hk]
        exact ih hn.2 hm2

lemma dictInsert_not_mem {kvs : List (String × JVal)} {k : String} {v : JVal}
    (h : k ∉ kvs.map Prod.fst) : dictInsert kvs k v = kvs ++ [(k, v)] := by
  induction kvs with
  | nil => rfl
  | cons kv rest ih =>
      rcases kv with ⟨k1, v1⟩
      simp only [List.map_cons, List.mem_cons, not_or] at h
      simp only [dictInsert]
      rw [if_neg (fun he => h.1 he.symm), ih h.2]
      simp

lemma runAux_trace (address : String) :
    ∀ (ps : List Provider) (acc : List (String × JVal))
      (tr : List (String × String)),
      (runAux address acc tr ps).2 = tr ++ ps.map fun p => (p.name, address)
  | [], _, _ => by simp [runAux]
  | p :: rest, acc, tr => by
      simp only [runAux, List.map_cons]
      rw [runAux_trace address rest _ _]
      simp

lemma runAux_results (address : String) :
    ∀ (ps : List Provider) (acc : List (String × JVal))
      (tr : List (String × String)),
      (ps.map Provider.name).Nodup →
      (∀ p ∈ ps, p.name ∉ acc.map Prod.fst) →
      (runAux address acc tr ps).1 =
        acc ++ ps.map fun p => (p.name, fetchOne address p)
  | [], _, _, _, _ => by simp [runAux]
  | p :: rest, acc, tr, hn, hf => by
      simp only [runAux, List.map_cons]
      have hpacc : p.name ∉ acc.map Prod.fst := hf p (List.mem_cons_self p rest)
      have hn2 : (rest.map Provider.name).Nodup :=
        (List.nodup_cons.mp (by simpa using hn)).2
      have hp : p.name ∉ rest.map Provider.name :=
        (List.nodup_cons.mp (by simpa using hn)).1
      rw [runAux_results address rest _ _ hn2 ?_]
      · rw [dictInsert_not_mem hpacc]
        simp
      · intro q hq
        rw [dictInsert_not_mem hpacc]
        simp only [List.map_append, List.mem_append]
        rintro (hacc | hone)
        · exact hf q (List.mem_cons_of_mem p hq) hacc
        · simp only [List.map_cons, List.map_nil, List.mem_singleton] at hone
          exact hp (hone ▸ List.mem_map.mpr ⟨q, hq, hone ▸ rfl⟩)

lemma sp1_ok (rkvs dkvs fkvs : List (String × JVal)) (lv : JVal)
    (h1 : dictGet rkvs "data" (.obj []) = .obj dkvs)
    (h2 : dictGet dkvs "features" (.obj []) = .obj fkvs)
    (h3 : convert_sqft_to_acres (dictGet dkvs "lotSizeSqFt" .null) = .ok lv) :
    standardize_provider1 (.obj rkvs) = .ok (standard1Of rkvs dkvs fkvs lv) := by
  simp [standardize_provider1, standard1Of, jGetN, jGetD, h1, h2, h3,
    Bind.bind, Except.bind, Pure.pure, Except.pure]

lemma sp1_shape (raw out : JVal) (h : standardize_provider1 raw = .ok out) :
    ∃ rkvs dkvs fkvs lv,
      raw = .obj rkvs ∧
      dictGet rkvs "data" (.obj []) = .obj dkvs ∧
      dictGet dkvs "features" (.obj []) = .obj fkvs ∧
      convert_sqft_to_acres (dictGet dkvs "lotSizeSqFt" .null) = .ok lv ∧
      out = standard1Of rkvs dkvs fkvs lv := by
  cases raw with
  | null => simp [standardize_provider1, jGetD, Bind.bind, Except.bind] at h
  | bool b => simp [standardize_provider1, jGetD, Bind.bind, Except.bind] at h
  | num q => simp [standardize_provider1, jGetD, Bind.bind, Except.bind] at h
  | str s => simp [standardize_provider1, jGetD, Bind.bind, Except.bind] at h
  | obj rkvs =>
      rcases h1 : dictGet rkvs "data" (.obj []) with _ | b | q | s | dkvs
      case null | bool | num | str =>
        simp [standardize_provider1, jGetD, jGetN, h1,
          Bind.bind, Except.bind] at h
      rcases h3 : convert_sqft_to_acres (dictGet dkvs "lotSizeSqFt" .null)
        with e | lv
      · simp [standardize_provider1, jGetD, jGetN, h1, h3,
          Bind.bind, Except.bind] at h
      rcases h2 : dictGet dkvs "features" (.obj []) with _ | b | q | s | fkvs
      case null | bool | num | str =>
        simp [standardize_provider1, jGetD, jGetN, h1, h2, h3,
          Bind.bind, Except.bind] at h
      have hok := sp1_ok rkvs dkvs fkvs lv h1 h2 h3
      rw [hok] at h
      exact ⟨rkvs, dkvs, fkvs, lv, rfl, h1, h2, h3,
        (Except.ok.injEq _ _ ▸ h).symm⟩

lemma sp2_ok (rkvs dkvs : List (String × JVal))
    (h1 : dictGet rkvs "data" (.obj []) = .obj dkvs) :
    standardize_provider2 (.obj rkvs) = .ok (standard2Of rkvs dkvs) := by
  simp [standardize_provider2, standard2Of, jGetN, jGetD, h1,
    Bind.bind, Except.bind, Pure.pure, Except.pure]

lemma sp2_shape (raw out : JVal) (h : standardize_provider2 raw = .ok out) :
    ∃ rkvs dkvs,
      raw = .obj rkvs ∧
      dictGet rkvs "data" (.obj []) = .obj dkvs ∧
      out = standard2Of rkvs dkvs := by
  cases raw with
  | null => simp [standardize_provider2, jGetD, Bind.bind, Except.bind] at h
  | bool b => simp [standardize_provider2, jGetD, Bind.bind, Except.bind] at h
  | num q => simp [standardize_provider2, jGetD, Bind.bind, Except.bind] at h
  | str s => simp [standardize_provider2, jGetD, Bind.bind, Except.bind] at h
  | obj rkvs =>
      rcases h1 : dictGet rkvs "data" (.obj []) with _ | b | q | s | dkvs
      case null | bool | num | str =>
        simp [standardize_provider2, jGetD, jGetN, h1,
          Bind.bind, Except.bind] at h
      have hok := sp2_ok rkvs dkvs h1
      rw [hok] at h
      exact ⟨rkvs, dkvs, rfl, h1, (Except.ok.injEq _ _ ▸ h).symm⟩

lemma fetch_all_results (providers : List Provider) (address : String)
    (h : (providers.map Provider.name).Nodup) :
    (runAux address [] [] providers).1 =
      providers.map fun p => (p.name, fetchOne address p) := by
  rw [runAux_results address providers [] [] h (by simp)]
  simp

lemma dictGet_results (providers : List Provider) (address : String)
    {p : Provider} (h : (providers.map Provider.name).Nodup)
    (hm : p ∈ providers) (d : JVal) :
    dictGet (runAux address [] [] providers).1 p.name d =
      fetchOne address p := by
  rw [fetch_all_results providers address h]
  exact dictGet_mem_nodup (by simpa [Function.comp] using h)
    (List.mem_map.mpr ⟨p, hm, rfl⟩)

lemma pyRead_sim {α : Type} (m : Except String α) : StSim (pyRead m) m :=
  fun _ => rfl

lemma pyPure_sim {α : Type} (a : α) : StSim (pyPure a) (.ok a) :=
  fun _ => rfl

lemma pyBind_sim {α β : Type} {m : PySt α} {me : Except String α}
    {f : α → PySt β} {g : α → Except String β}
    (hm : StSim m me) (hf : ∀ a, StSim (f a) (g a)) :
    StSim (pyBind m f) (me >>= g) := by
  intro s
  unfold pyBind
  rw [hm s]
  cases me with
  | ok a => simpa [Bind.bind, Except.bind] using hf a s
  | error e => simp [Bind.bind, Except.bind]

lemma sp1_st_sim (raw : JVal) :
    StSim (standardize_provider1_st raw) (standardize_provider1 raw) := by
  unfold standardize_provider1_st standardize_provider1 pyGetD pyGetN pyConvert
  apply pyBind_sim (pyRead_sim _); intro data
  apply pyBind_sim (pyRead_sim _); intro features
  apply pyBind_sim (pyRead_sim _); intro address
  apply pyBind_sim (pyRead_sim _); intro squareFootage
  apply pyBind_sim (pyRead_sim _); intro lotRaw
  apply pyBind_sim (pyRead_sim _); intro lotSize
  apply pyBind_sim (pyRead_sim _); intro yearBuilt
  apply pyBind_sim (pyRead_sim _); intro propertyType
  apply pyBind_sim (pyRead_sim _); intro bedrooms
  apply pyBind_sim (pyRead_sim _); intro bathrooms
  apply pyBind_sim (pyRead_sim _); intro roomCount
  apply pyBind_sim (pyRead_sim _); intro septicSystem
  apply pyBind_sim (pyRead_sim _); intro salePrice
  apply pyBind_sim (pyRead_sim _); intro cached
  exact pyPure_sim _

lemma sp2_st_sim (raw : JVal) :
    StSim (standardize_provider2_st raw) (standardize_provider2 raw) := by
  unfold standardize_provider2_st standardize_provider2 pyGetD pyGetN
  apply pyBind_sim (pyRead_sim _); intro data
  apply pyBind_sim (pyRead_sim _); intro address
  apply pyBind_sim (pyRead_sim _); intro squareFootage
  apply pyBind_sim (pyRead_sim _); intro lotSize
  apply pyBind_sim (pyRead_sim _); intro yearBuilt
  apply pyBind_sim (pyRead_sim _); intro propertyType
  apply pyBind_sim (pyRead_sim _); intro bedrooms
  apply pyBind_sim (pyRead_sim _); intro bathrooms
  apply pyBind_sim (pyRead_sim _); intro roomCount
  apply pyBind_sim (pyRead_sim _); intro septicSystem
  apply pyBind_sim (pyRead_sim _); intro salePrice
  apply pyBind_sim (pyRead_sim _); intro cached
  exact pyPure_sim _

lemma standard1Of_lot (rkvs dkvs fkvs : List (String × JVal)) (lv : JVal) :
    objGet (standard1Of rkvs dkvs fkvs lv) "lotSize" = lv := by
  simp [standard1Of, objGet, dictGet]

lemma standard1Of_cached (rkvs dkvs fkvs : List (String × JVal)) (lv : JVal) :
    objGet (standard1Of rkvs dkvs fkvs lv) "cached" =
      dictGet rkvs "cached" (.bool false) := by
  simp [standard1Of, objGet, dictGet]

lemma standard2Of_lot (rkvs dkvs : List (String × JVal)) :
    objGet (standard2Of rkvs dkvs) "lotSize" =
      dictGet dkvs "LotSizeAcres" .null := by
  simp [standard2Of, objGet, dictGet]

lemma standard2Of_cached (rkvs dkvs : List (String × JVal)) :
    objGet (standard2Of rkvs dkvs) "cached" =
      dictGet rkvs "cached" (.bool false) := by
  simp [standard2Of, objGet, dictGet]

/-- C1: for every address and every combination of per-provider
outcomes (the fetch functions are arbitrary), `fetch_all` returns a
mapping with exactly one entry per configured provider, keyed by that
provider's display name in configuration order; each entry is
`fetchOne` of that provider alone, so one provider's failure neither
changes another provider's entry nor aborts the operation; and the
trace shows every provider is attempted regardless of outcomes. -/
theorem fetch_all_entry_per_provider (providers : List Provider)
    (address : String) (h : (providers.map Provider.name).Nodup) :
    fetch_all providers address =
      .obj [("providers",
        .obj (providers.map fun p => (p.name, fetchOne address p)))] ∧
    fetch_trace providers address =
      providers.map fun p => (p.name, address) := by
  constructor
  · unfold fetch_all
    rw [fetch_all_results providers address h]
  · unfold fetch_trace
    rw [runAux_trace address providers [] []]
    simp

theorem fetch_all_entry_per_provider_witness :
    (([wp1, wp2].map Provider.name).Nodup ∧
      fetch_all [wp1, wp2] "15 Main St" =
        .obj [("providers",
          .obj ([wp1, wp2].map fun p => (p.name, fetchOne "15 Main St" p)))] ∧
      fetch_trace [wp1, wp2] "15 Main St" =
        [wp1, wp2].map fun p => (p.name, "15 Main St")) :=
  ⟨by decide,
   (fetch_all_entry_per_provider [wp1, wp2] "15 Main St" (by decide)).1,
   (fetch_all_entry_per_provider [wp1, wp2] "15 Main St" (by decide)).2⟩

/-- C2: whenever a provider's fetch raises with message `e`, its entry
in the results is `errorPlaceholder e`, whose ten data fields are all
null, whose `cached` flag is false and whose `error` string is `e`; and
in particular when Provider 1 fails while Provider 2 succeeds with a
document that standardizes to `v`, Provider 2's entry is `v` and
Provider 1's entry is the placeholder. -/
theorem fetch_all_error_entry :
    (∀ (providers : List Provider) (address : String) (p : Provider)
       (e : String),
       (providers.map Provider.name).Nodup → p ∈ providers →
       p.fetch address = .error e →
       dictGet (runAux address [] [] providers).1 p.name .null =
         errorPlaceholder e) ∧
    (∀ (e : String), ∀ k ∈ dataFields,
       objGet (errorPlaceholder e) k = .null) ∧
    (∀ (e : String),
       objGet (errorPlaceholder e) "cached" = .bool false ∧
       objGet (errorPlaceholder e) "error" = .str e) ∧
    (∀ (providers : List Provider) (address : String) (p q : Provider)
       (e : String) (raw v : JVal),
       (providers.map Provider.name).Nodup → p ∈ providers →
       q ∈ providers → p.fetch address = .error e →
       q.name = "Provider 2" → q.fetch address = .ok raw →
       standardize_provider2 raw = .ok v →
       dictGet (runAux address [] [] providers).1 q.name .null = v ∧
       dictGet (runAux address [] [] providers).1 p.name .null =
         errorPlaceholder e) := by
  refine ⟨?_, ?_, ?_, ?_⟩
  · intro providers address p e hn hp hpe
    rw [dictGet_results providers address hn hp]
    simp [fetchOne, hpe, Bind.bind, Except.bind]
  · intro e k hk
    simp only [dataFields, List.mem_cons, List.not_mem_nil, or_false] at hk
    rcases hk with rfl | rfl | rfl | rfl | rfl | rfl | rfl | rfl | rfl | rfl <;>
      rfl
  · intro e
    exact ⟨rfl, rfl⟩
  · intro providers address p q e raw v hn hp hq hpe hq2 hqs hst
    constructor
    · rw [dictGet_results providers address hn hq]
      simp [fetchOne, hqs, hq2, hst, Bind.bind, Except.bind]
    · rw [dictGet_results providers address hn hp]
      simp [fetchOne, hpe, Bind.bind, Except.bind]

theorem fetch_all_error_entry_witness :
    (([wp1, wp2].map Provider.name).Nodup ∧
      wp1.fetch "15 Main St" = .error "connection timed out" ∧
      wp2.name = "Provider 2" ∧
      wp2.fetch "15 Main St" = .ok wp2raw ∧
      standardize_provider2 wp2raw = .ok wp2std) ∧
    (dictGet (runAux "15 Main St" [] [] [wp1, wp2]).1 wp2.name .null =
        wp2std ∧
      dictGet (runAux "15 Main St" [] [] [wp1, wp2]).1 wp1.name .null =
        errorPlaceholder "connection timed out") :=
  ⟨⟨by decide, rfl, rfl, rfl, rfl⟩,
   fetch_all_error_entry.2.2.2 [wp1, wp2] "15 Main St" wp1 wp2
     "connection timed out" wp2raw wp2std (by decide)
     (List.mem_cons_self _ _) (List.mem_cons_of_mem _ (List.mem_cons_self _ _))
     rfl rfl rfl rfl⟩

/-- C3: for a Provider 1 document whose `data` dict carries a numeric
`lotSizeSqFt` value `q`, the standardized `lotSize` is `q / 43560`
rounded to 2 decimal places; the concrete document with
`lotSizeSqFt: 21780` yields `lotSize: 0.50`; and a null (or absent,
which reads as null) `lotSizeSqFt` yields a null `lotSize`. -/
theorem provider1_lot_size_conversion :
    (∀ (rkvs dkvs : List (String × JVal)) (q : ℚ) (out : JVal),
       dictGet rkvs "data" (.obj []) = .obj dkvs →
       dictGet dkvs "lotSizeSqFt" .null = .num q →
       standardize_provider1 (.obj rkvs) = .ok out →
       objGet out "lotSize" = .num (round2 (q / 43560))) ∧
    (standardize_provider1 lot21780doc = .ok lot21780out ∧
      objGet lot21780out "lotSize" = .num (1 / 2)) ∧
    (∀ (rkvs dkvs : List (String × JVal)) (out : JVal),
       dictGet rkvs "data" (.obj []) = .obj dkvs →
       dictGet dkvs "lotSizeSqFt" .null = .null →
       standardize_provider1 (.obj rkvs) = .ok out →
       objGet out "lotSize" = .null) := by
  refine ⟨?_, ⟨?_, rfl⟩, ?_⟩
  · intro rkvs dkvs q out h1 h2 h3
    obtain ⟨rkvs2, dkvs2, fkvs, lv, heq, h1b, h2b, h3b, hout⟩ :=
      sp1_shape _ _ h3
    injection heq with he
    subst he
    rw [h1] at h1b
    injection h1b with hd
    subst hd
    rw [h2] at h3b
    simp only [convert_sqft_to_acres, Except.ok.injEq] at h3b
    rw [hout, standard1Of_lot, ← h3b]
  · show standardize_provider1 lot21780doc = .ok lot21780out
    simp [standardize_provider1, lot21780doc, lot21780out, jGetD, jGetN,
      dictGet, convert_sqft_to_acres, Bind.bind, Except.bind,
      Pure.pure, Except.pure]
    norm_num [round2, roundHalfEven]
  · intro rkvs dkvs out h1 h2 h3
    obtain ⟨rkvs2, dkvs2, fkvs, lv, heq, h1b, h2b, h3b, hout⟩ :=
      sp1_shape _ _ h3
    injection heq with he
    subst he
    rw [h1] at h1b
    injection h1b with hd
    subst hd
    rw [h2] at h3b
    simp only [convert_sqft_to_acres, Except.ok.injEq] at h3b
    rw [hout, standard1Of_lot, ← h3b]

theorem provider1_lot_size_conversion_witness :
    (dictGet [("data", JVal.obj [])] "data" (.obj []) = .obj [] ∧
      dictGet ([] : List (String × JVal)) "lotSizeSqFt" .null = .null ∧
      standardize_provider1 (.obj [("data", .obj [])]) = .ok allNull1) ∧
    objGet allNull1 "lotSize" = .null :=
  ⟨⟨rfl, rfl, rfl⟩,
   provider1_lot_size_conversion.2.2 [("data", .obj [])] [] allNull1
     rfl rfl rfl⟩

/-- C4, counterexample: standardization is not total on every raw
dictionary. On the concrete document with a null `data` entry,
`standardize_provider1` raises (Python: `None.get` is an
`AttributeError`) instead of returning a record. -/
theorem standardize_totality_counterexample :
    standardize_provider1 (.obj [("data", .null)]) =
      .error "AttributeError: object has no attribute get" := rfl

/-- C4, amended: standardization is total on raw dictionaries whose
`data` entry (and, for Provider 1, its `features` entry) is a dict when
looked up and whose `lotSizeSqFt` value is null, a number, or a
boolean; on such documents both standardizers return a record without
raising, and a missing key yields null for the corresponding field (the
empty document maps to the all-null record with `cached: false`). -/
theorem standardize_total_amended :
    (∀ (rkvs dkvs fkvs : List (String × JVal)),
       dictGet rkvs "data" (.obj []) = .obj dkvs →
       dictGet dkvs "features" (.obj []) = .obj fkvs →
       lotConvertible (dictGet dkvs "lotSizeSqFt" .null) = true →
       ∃ out, standardize_provider1 (.obj rkvs) = .ok out) ∧
    (∀ (rkvs dkvs : List (String × JVal)),
       dictGet rkvs "data" (.obj []) = .obj dkvs →
       ∃ out, standardize_provider2 (.obj rkvs) = .ok out) ∧
    standardize_provider1 (.obj []) = .ok allNull1 ∧
    standardize_provider2 (.obj []) = .ok allNull1 := by
  refine ⟨?_, ?_, rfl, rfl⟩
  · intro rkvs dkvs fkvs h1 h2 hl
    rcases hv : dictGet dkvs "lotSizeSqFt" .null with _ | b | q | s | kvs
    · exact ⟨_, sp1_ok rkvs dkvs fkvs _ h1 h2 (by rw [hv]; rfl)⟩
    · exact ⟨_, sp1_ok rkvs dkvs fkvs _ h1 h2 (by rw [hv]; rfl)⟩
    · exact ⟨_, sp1_ok rkvs dkvs fkvs _ h1 h2 (by rw [hv]; rfl)⟩
    · rw [hv] at hl
      simp [lotConvertible] at hl
    · rw [hv] at hl
      simp [lotConvertible] at hl
  · intro rkvs dkvs h1
    exact ⟨_, sp2_ok rkvs dkvs h1⟩

theorem standardize_total_amended_witness :
    (dictGet [("data", JVal.obj [("lotSizeSqFt", JVal.num 100)])] "data"
        (.obj []) = .obj [("lotSizeSqFt", JVal.num 100)] ∧
      dictGet [("lotSizeSqFt", JVal.num 100)] "features" (.obj []) =
        .obj [] ∧
      lotConvertible
        (dictGet [("lotSizeSqFt", JVal.num 100)] "lotSizeSqFt" .null) =
        true) ∧
    (∃ out, standardize_provider1
      (.obj [("data", .obj [("lotSizeSqFt", .num 100)])]) = .ok out) :=
  ⟨⟨rfl, rfl, rfl⟩,
   standardize_total_amended.1 [("data", .obj [("lotSizeSqFt", .num 100)])]
     [("lotSizeSqFt", .num 100)] [] rfl rfl rfl⟩

/-- C5: a missing or empty `address` query parameter produces HTTP 400
with the JSON body whose single `error` entry reads "Address is
required", and an empty invocation trace (no provider is fetched); a
non-empty address produces HTTP 200
with the aggregated result, every configured provider being invoked
exactly once with that address. -/
theorem property_view_requires_address (providers : List Provider) :
    property_view providers none =
      ((400, .obj [("error", .str "Address is required")]), []) ∧
    property_view providers (some "") =
      ((400, .obj [("error", .str "Address is required")]), []) ∧
    (∀ a : String, a ≠ "" →
      property_view providers (some a) =
        ((200, fetch_all providers a),
          providers.map fun p => (p.name, a))) := by
  refine ⟨rfl, rfl, ?_⟩
  intro a ha
  show (if a = "" then ((400, JVal.obj [("error", JVal.str "Address is required")]), ([] : List (String × String)))
      else ((200, fetch_all providers a), fetch_trace providers a)) =
    ((200, fetch_all providers a), providers.map fun p => (p.name, a))
  rw [if_neg ha]
  unfold fetch_trace
  rw [runAux_trace a providers [] []]
  simp

theorem property_view_requires_address_witness :
    ("22 Oak Ave" ≠ "" ∧
      property_view [wp1, wp2] (some "22 Oak Ave") =
        ((200, fetch_all [wp1, wp2] "22 Oak Ave"),
          [wp1, wp2].map fun p => (p.name, "22 Oak Ave"))) :=
  ⟨by decide,
   (property_view_requires_address [wp1, wp2]).2.2 "22 Oak Ave" (by decide)⟩

/-- C6: every record a standardizer returns has exactly the fixed
11-field schema as its key list — no provider-specific key from the raw
document leaks into the output. -/
theorem standardized_schema_keys (raw out : JVal)
    (h : standardize_provider1 raw = .ok out ∨
      standardize_provider2 raw = .ok out) :
    objKeys out = schemaKeys := by
  rcases h with h | h
  · obtain ⟨rkvs, dkvs, fkvs, lv, _, _, _, _, rfl⟩ := sp1_shape _ _ h
    rfl
  · obtain ⟨rkvs, dkvs, _, _, rfl⟩ := sp2_shape _ _ h
    rfl

theorem standardized_schema_keys_witness :
    (standardize_provider2 wp2raw = .ok wp2std ∨
      standardize_provider1 wp2raw = .ok wp2std) ∧
    objKeys wp2std = schemaKeys :=
  ⟨Or.inl rfl,
   standardized_schema_keys wp2raw wp2std (Or.inr rfl)⟩

/-- C7: for every Provider 2 document, the standardized `lotSize` is
exactly the raw `LotSizeAcres` value, with no conversion or rounding;
in particular `LotSizeAcres: 0.33` yields `lotSize: 0.33` unchanged. -/
theorem provider2_lot_passthrough :
    (∀ (rkvs dkvs : List (String × JVal)) (out : JVal),
       dictGet rkvs "data" (.obj []) = .obj dkvs →
       standardize_provider2 (.obj rkvs) = .ok out →
       objGet out "lotSize" = dictGet dkvs "LotSizeAcres" .null) ∧
    (standardize_provider2 lot033doc = .ok lot033out ∧
      objGet lot033out "lotSize" = .num (33 / 100)) := by
  refine ⟨?_, rfl, rfl⟩
  intro rkvs dkvs out h1 h2
  obtain ⟨rkvs2, dkvs2, heq, h1b, hout⟩ := sp2_shape _ _ h2
  injection heq with he
  subst he
  rw [h1] at h1b
  injection h1b with hd
  subst hd
  rw [hout, standard2Of_lot]

theorem provider2_lot_passthrough_witness :
    (dictGet [("data", JVal.obj [("LotSizeAcres", JVal.num (33 / 100))])]
        "data" (.obj []) = .obj [("LotSizeAcres", JVal.num (33 / 100))] ∧
      standardize_provider2 lot033doc = .ok lot033out) ∧
    objGet lot033out "lotSize" =
      dictGet [("LotSizeAcres", JVal.num (33 / 100))] "LotSizeAcres" .null :=
  ⟨⟨rfl, rfl⟩,
   provider2_lot_passthrough.1 [("data", .obj [("LotSizeAcres", .num (33 / 100))])]
     [("LotSizeAcres", .num (33 / 100))] lot033out rfl rfl⟩

/-- C8: a successfully fetched document from a provider whose display
name is neither "Provider 1" nor "Provider 2" appears in the results
unmodified — the dispatch falls back to passing the raw document
through. -/
theorem unknown_provider_passthrough (providers : List Provider)
    (address : String) (p : Provider) (raw : JVal)
    (hn : (providers.map Provider.name).Nodup) (hp : p ∈ providers)
    (h1 : p.name ≠ "Provider 1") (h2 : p.name ≠ "Provider 2")
    (hf : p.fetch address = .ok raw) :
    dictGet (runAux address [] [] providers).1 p.name .null = raw := by
  rw [dictGet_results providers address hn hp]
  simp [fetchOne, hf, h1, h2, Bind.bind, Except.bind, Pure.pure, Except.pure]

theorem unknown_provider_passthrough_witness :
    (([wp1, wp3].map Provider.name).Nodup ∧
      wp3.name ≠ "Provider 1" ∧ wp3.name ≠ "Provider 2" ∧
      wp3.fetch "15 Main St" = .ok wp3raw) ∧
    dictGet (runAux "15 Main St" [] [] [wp1, wp3]).1 wp3.name .null =
      wp3raw :=
  ⟨⟨by decide, by decide, by decide, rfl⟩,
   unknown_provider_passthrough [wp1, wp3] "15 Main St" wp3 wp3raw
     (by decide) (List.mem_cons_of_mem _ (List.mem_cons_self _ _))
     (by decide) (by decide) rfl⟩

/-- C9: both standardizers set the output `cached` field to the raw
document's top-level `cached` value read with default false: on a raw
dict with unique keys carrying `("cached", v)` the result is `v`, and
when the key is absent the result is `false`. -/
theorem cached_flag_passthrough :
    (∀ (rkvs : List (String × JVal)) (out : JVal),
       standardize_provider1 (.obj rkvs) = .ok out →
       objGet out "cached" = dictGet rkvs "cached" (.bool false)) ∧
    (∀ (rkvs : List (String × JVal)) (out : JVal),
       standardize_provider2 (.obj rkvs) = .ok out →
       objGet out "cached" = dictGet rkvs "cached" (.bool false)) ∧
    (∀ rkvs : List (String × JVal), "cached" ∉ rkvs.map Prod.fst →
       dictGet rkvs "cached" (.bool false) = .bool false) ∧
    (∀ (rkvs : List (String × JVal)) (v : JVal),
       (rkvs.map Prod.fst).Nodup → ("cached", v) ∈ rkvs →
       dictGet rkvs "cached" (.bool false) = v) := by
  refine ⟨?_, ?_, ?_, ?_⟩
  · intro rkvs out h
    obtain ⟨rkvs2, dkvs, fkvs, lv, heq, _, _, _, hout⟩ := sp1_shape _ _ h
    injection heq with he
    subst he
    rw [hout, standard1Of_cached]
  · intro rkvs out h
    obtain ⟨rkvs2, dkvs, heq, _, hout⟩ := sp2_shape _ _ h
    injection heq with he
    subst he
    rw [hout, standard2Of_cached]
  · intro rkvs h
    exact dictGet_not_mem h
  · intro rkvs v hn hm
    exact dictGet_mem_nodup hn hm

theorem cached_flag_passthrough_witness :
    (standardize_provider2
        (.obj
          [("data", JVal.obj
             [("NormalizedAddress", JVal.str "1 Elm St"),
              ("LotSizeAcres", JVal.num (33 / 100))]),
           ("cached", JVal.bool true)]) = .ok wp2std) ∧
    objGet wp2std "cached" =
      dictGet
        [("data", JVal.obj
           [("NormalizedAddress", JVal.str "1 Elm St"),
            ("LotSizeAcres", JVal.num (33 / 100))]),
         ("cached", JVal.bool true)] "cached" (.bool false) :=
  ⟨rfl,
   cached_flag_passthrough.2.1
     [("data", .obj
        [("NormalizedAddress", .str "1 Elm St"),
         ("LotSizeAcres", .num (33 / 100))]),
      ("cached", .bool true)] wp2std rfl⟩

/-- C10: the standardizers only read from the raw document: running
either standardizer with the document's state threaded through every
operation of the source leaves the document exactly as it was, while
producing the same result as the pure function. -/
theorem standardizers_leave_input_unchanged (raw : JVal) :
    standardize_provider1_st raw raw = (raw, standardize_provider1 raw) ∧
    standardize_provider2_st raw raw = (raw, standardize_provider2 raw) :=
  ⟨sp1_st_sim raw raw, sp2_st_sim raw raw⟩
